import Mathlib

set_option linter.unusedVariables false

namespace StandupSydney

/-- Python-style values appearing in the structured mappings the server returns. -/
inductive Value where
  | vnone : Value
  | vbool : Bool → Value
  | vnat : Nat → Value
  | vstr : String → Value
  | vlist : List Value → Value
  | vdict : List (String × Value) → Value

/-- A Python dict with string keys, as an ordered association list. -/
abbrev Dict := List (String × Value)

/-- Dictionary key lookup (Python d.get(k)). -/
def getKey (d : Dict) (k : String) : Option Value :=
  List.lookup k d

/-- Python truthiness of a string: non-empty strings are truthy. -/
def pyTruthy (s : String) : Bool := s != ""

/-- Python truthiness of an optional string: None and the empty string are falsy. -/
def optTruthy : Option String → Bool
  | none => false
  | some s => pyTruthy s

/-- The process environment variables the server reads; an unset variable is
modelled as the empty string, exactly as os.getenv(name, "") yields and with the
same truthiness as os.getenv(name) under bool(). -/
structure Env where
  supabase_url : String
  supabase_anon_key : String
  github_token : String
  notion_token : String
  metricool_api_key : String
deriving Repr, DecidableEq

/-- One entry of TOOL_CONFIGS: the keys a given tool's config dict may carry.
A field is none when the Python dict has no such key (so .get returns None). -/
structure ToolConfig where
  url : Option String := none
  key : Option String := none
  token : Option String := none
  api_key : Option String := none
  enabled : Bool
  description : String
deriving Repr, DecidableEq

/-- The configured flag computed by list_tools for one config entry:
bool(config.get("token") or config.get("api_key") or config.get("url") or config["enabled"]). -/
def configuredFlag (c : ToolConfig) : Bool :=
  optTruthy c.token || optTruthy c.api_key || optTruthy c.url || c.enabled

/-- Python `d or default` for an optional dict argument: None (and only the
shape-irrelevant empty dict) falls back to the empty dict. -/
def dictOr : Option Dict → Dict
  | none => []
  | some d => d

/-- The Python value stored for an optional-dict argument placed directly in a
result dict (None stays None). -/
def optDictValue : Option Dict → Value
  | none => Value.vnone
  | some d => Value.vdict d

namespace ServerMain

/-- SERVER_CONFIG of server.py; deployed_at is the module-load datetime.now(). -/
def SERVER_CONFIG (deployedAt : String) : StandupSydney.Dict :=
  [ ("name", Value.vstr "Stand Up Sydney FastMCP"),
    ("version", Value.vstr "1.0.0"),
    ("host", Value.vstr "170.64.252.55"),
    ("port", Value.vnat 8080),
    ("deployed_at", Value.vstr deployedAt),
    ("platform", Value.vstr "comedy_booking_automation") ]

/-- TOOL_CONFIGS of server.py, built from the environment snapshot. -/
def TOOL_CONFIGS (env : Env) : List (String × ToolConfig) :=
  [ ("supabase",
      { url := some env.supabase_url, key := some env.supabase_anon_key,
        enabled := pyTruthy env.supabase_url,
        description := "Backend API operations for Stand Up Sydney database" }),
    ("github",
      { token := some env.github_token, enabled := pyTruthy env.github_token,
        description := "Version control and deployment tracking" }),
    ("notion",
      { token := some env.notion_token, enabled := pyTruthy env.notion_token,
        description := "Project logging, tasks, and documentation" }),
    ("metricool",
      { api_key := some env.metricool_api_key, enabled := pyTruthy env.metricool_api_key,
        description := "Social media promotion and analytics" }),
    ("browser",
      { enabled := true,
        description := "Web automation for data scraping and testing" }),
    ("filesystem",
      { enabled := true,
        description := "File operations for content management" }) ]

/-- TOOL_CONFIGS[name]["enabled"]; the names used by the code are all present. -/
def configEnabled (env : Env) (name : String) : Bool :=
  match List.lookup name (TOOL_CONFIGS env) with
  | some c => c.enabled
  | none => false

/-- The enabled-tool names computed inside health_check and list_tools. -/
def enabledTools (env : Env) : List String :=
  ((TOOL_CONFIGS env).filter (fun p => p.2.enabled)).map (fun p => p.1)

/-- health_check of server.py; now is the invocation-time datetime.now(). -/
def health_check (env : Env) (deployedAt now : String) : StandupSydney.Dict :=
  [ ("status", Value.vstr "healthy"),
    ("server", Value.vdict (SERVER_CONFIG deployedAt)),
    ("tools_enabled", Value.vlist ((enabledTools env).map Value.vstr)),
    ("tools_count", Value.vnat (enabledTools env).length),
    ("timestamp", Value.vstr now),
    ("deployment", Value.vstr "droplet_170.64.252.55") ]

/-- list_tools of server.py. -/
def list_tools (env : Env) (deployedAt : String) : StandupSydney.Dict :=
  [ ("tools", Value.vdict ((TOOL_CONFIGS env).map (fun p =>
      (p.1, Value.vdict
        [ ("enabled", Value.vbool p.2.enabled),
          ("description", Value.vstr p.2.description),
          ("configured", Value.vbool (configuredFlag p.2)) ])))),
    ("total_tools", Value.vnat (TOOL_CONFIGS env).length),
    ("enabled_tools", Value.vnat ((TOOL_CONFIGS env).filter (fun p => p.2.enabled)).length),
    ("server_config", Value.vdict (SERVER_CONFIG deployedAt)) ]

/-- supabase_query of server.py. -/
def supabase_query (env : Env) (table : String) (operation : String)
    (filters : Option StandupSydney.Dict) (data : Option StandupSydney.Dict)
    (now : String) : StandupSydney.Dict :=
  if !(configEnabled env "supabase") then
    [("error", Value.vstr "Supabase tool not enabled - check SUPABASE_URL and SUPABASE_ANON_KEY")]
  else
    [ ("operation", Value.vstr operation),
      ("table", Value.vstr table),
      ("filters", Value.vdict (dictOr filters)),
      ("data", Value.vdict (dictOr data)),
      ("status", Value.vstr "ready_for_implementation"),
      ("message", Value.vstr ("FastMCP ready to execute " ++ operation ++ " on " ++ table ++ " table")),
      ("timestamp", Value.vstr now) ]

/-- supabase_comedian_operations of server.py: delegation to supabase_query with
Python-truthiness on comedian_id (None or the empty string yields filters=None). -/
def supabase_comedian_operations (env : Env) (action : String)
    (comedian_data : Option StandupSydney.Dict) (comedian_id : Option String)
    (now : String) : StandupSydney.Dict :=
  supabase_query env "comedians"
    (if action = "get" ∨ action = "list" then "select"
     else if action = "create" then "insert" else "update")
    (if optTruthy comedian_id then
       some [("id", Value.vstr (comedian_id.getD ""))]
     else none)
    comedian_data
    now

/-- github_deployment_tracking of server.py. -/
def github_deployment_tracking (env : Env) (repo : String) (action : String)
    (deployment_data : Option StandupSydney.Dict) (now : String) : StandupSydney.Dict :=
  if !(configEnabled env "github") then
    [("error", Value.vstr "GitHub tool not enabled - check GITHUB_TOKEN")]
  else
    [ ("repo", Value.vstr repo),
      ("action", Value.vstr action),
      ("status", Value.vstr "ready_for_implementation"),
      ("message", Value.vstr ("FastMCP ready to track " ++ repo ++ " deployments")),
      ("timestamp", Value.vstr now) ]

/-- github_version_control of server.py: delegation to github_deployment_tracking. -/
def github_version_control (env : Env) (repo : String) (operation : String)
    (branch : String) (file_data : Option StandupSydney.Dict)
    (now : String) : StandupSydney.Dict :=
  github_deployment_tracking env repo operation
    (some [("branch", Value.vstr branch), ("file_data", optDictValue file_data)]) now

/-- notion_project_logging of server.py. -/
def notion_project_logging (env : Env) (page_type : String) (action : String)
    (content : Option StandupSydney.Dict) (now : String) : StandupSydney.Dict :=
  if !(configEnabled env "notion") then
    [("error", Value.vstr "Notion tool not enabled - check NOTION_TOKEN")]
  else
    [ ("page_type", Value.vstr page_type),
      ("action", Value.vstr action),
      ("content", Value.vdict (dictOr content)),
      ("status", Value.vstr "ready_for_implementation"),
      ("message", Value.vstr ("FastMCP ready to " ++ action ++ " " ++ page_type ++ " in Notion")),
      ("timestamp", Value.vstr now) ]

/-- metricool_promotion of server.py. -/
def metricool_promotion (env : Env) (campaign_type : String)
    (content_data : StandupSydney.Dict) (schedule : Option StandupSydney.Dict)
    (now : String) : StandupSydney.Dict :=
  if !(configEnabled env "metricool") then
    [("error", Value.vstr "Metricool tool not enabled - check METRICOOL_API_KEY")]
  else
    [ ("campaign_type", Value.vstr campaign_type),
      ("content_data", Value.vdict content_data),
      ("schedule", Value.vdict (dictOr schedule)),
      ("status", Value.vstr "ready_for_implementation"),
      ("message", Value.vstr ("FastMCP ready to create " ++ campaign_type ++ " promotion")),
      ("timestamp", Value.vstr now) ]

/-- comedian_booking_workflow of server.py; t1, t2, t3 are the datetime.now()
values observed inside the three step invocations and t4 the final one. -/
def comedian_booking_workflow (env : Env) (comedian_id event_id workflow_stage : String)
    (t1 t2 t3 t4 : String) : StandupSydney.Dict :=
  let availability_check :=
    supabase_comedian_operations env "get" none (some comedian_id) t1
  let booking_log :=
    notion_project_logging env "booking_record" "create"
      (some [ ("comedian_id", Value.vstr comedian_id),
              ("event_id", Value.vstr event_id),
              ("stage", Value.vstr workflow_stage) ]) t2
  let promotion :=
    metricool_promotion env "comedian_spotlight"
      [ ("comedian_id", Value.vstr comedian_id),
        ("event_id", Value.vstr event_id) ] none t3
  [ ("workflow", Value.vstr "comedian_booking"),
    ("comedian_id", Value.vstr comedian_id),
    ("event_id", Value.vstr event_id),
    ("stage", Value.vstr workflow_stage),
    ("steps", Value.vlist
      [ Value.vdict [("step", Value.vstr "availability_check"), ("result", Value.vdict availability_check)],
        Value.vdict [("step", Value.vstr "notion_logging"), ("result", Value.vdict booking_log)],
        Value.vdict [("step", Value.vstr "promotion_setup"), ("result", Value.vdict promotion)] ]),
    ("status", Value.vstr "workflow_executed"),
    ("timestamp", Value.vstr t4) ]

end ServerMain

namespace ServerFixed

/-- SERVER_CONFIG of server_fixed.py. -/
def SERVER_CONFIG (deployedAt : String) : StandupSydney.Dict :=
  [ ("name", Value.vstr "Stand Up Sydney FastMCP"),
    ("version", Value.vstr "1.1.0"),
    ("host", Value.vstr "170.64.129.59"),
    ("port", Value.vnat 8080),
    ("deployed_at", Value.vstr deployedAt),
    ("platform", Value.vstr "comedy_booking_automation") ]

/-- TOOL_CONFIGS of server_fixed.py (playwright replaces browser; the four
credential-gated entries are identical to server.py). -/
def TOOL_CONFIGS (env : Env) : List (String × ToolConfig) :=
  [ ("supabase",
      { url := some env.supabase_url, key := some env.supabase_anon_key,
        enabled := pyTruthy env.supabase_url,
        description := "Backend API operations for Stand Up Sydney database" }),
    ("github",
      { token := some env.github_token, enabled := pyTruthy env.github_token,
        description := "Version control and deployment tracking" }),
    ("notion",
      { token := some env.notion_token, enabled := pyTruthy env.notion_token,
        description := "Project logging, tasks, and documentation" }),
    ("metricool",
      { api_key := some env.metricool_api_key, enabled := pyTruthy env.metricool_api_key,
        description := "Social media promotion and analytics" }),
    ("playwright",
      { enabled := true,
        description := "Playwright browser automation for testing and web scraping" }),
    ("filesystem",
      { enabled := true,
        description := "File operations for content management" }) ]

/-- TOOL_CONFIGS[name]["enabled"] for server_fixed.py. -/
def configEnabled (env : Env) (name : String) : Bool :=
  match List.lookup name (TOOL_CONFIGS env) with
  | some c => c.enabled
  | none => false

/-- The enabled-tool names computed inside health_check and list_tools. -/
def enabledTools (env : Env) : List String :=
  ((TOOL_CONFIGS env).filter (fun p => p.2.enabled)).map (fun p => p.1)

/-- health_check of server_fixed.py; pyVersion stands for sys.version. -/
def health_check (env : Env) (deployedAt pyVersion now : String) : StandupSydney.Dict :=
  [ ("status", Value.vstr "healthy"),
    ("server", Value.vdict (SERVER_CONFIG deployedAt)),
    ("tools_enabled", Value.vlist ((enabledTools env).map Value.vstr)),
    ("tools_count", Value.vnat (enabledTools env).length),
    ("timestamp", Value.vstr now),
    ("deployment", Value.vstr "droplet_170.64.129.59"),
    ("python_version", Value.vstr pyVersion),
    ("environment_vars", Value.vdict
      [ ("SUPABASE_URL", Value.vbool (pyTruthy env.supabase_url)),
        ("GITHUB_TOKEN", Value.vbool (pyTruthy env.github_token)),
        ("NOTION_TOKEN", Value.vbool (pyTruthy env.notion_token)),
        ("METRICOOL_API_KEY", Value.vbool (pyTruthy env.metricool_api_key)) ]) ]

/-- list_tools of server_fixed.py (same formula as server.py over its own configs). -/
def list_tools (env : Env) (deployedAt : String) : StandupSydney.Dict :=
  [ ("tools", Value.vdict ((TOOL_CONFIGS env).map (fun p =>
      (p.1, Value.vdict
        [ ("enabled", Value.vbool p.2.enabled),
          ("description", Value.vstr p.2.description),
          ("configured", Value.vbool (configuredFlag p.2)) ])))),
    ("total_tools", Value.vnat (TOOL_CONFIGS env).length),
    ("enabled_tools", Value.vnat ((TOOL_CONFIGS env).filter (fun p => p.2.enabled)).length),
    ("server_config", Value.vdict (SERVER_CONFIG deployedAt)) ]

/-- supabase_query of server_fixed.py (same body as server.py). -/
def supabase_query (env : Env) (table : String) (operation : String)
    (filters : Option StandupSydney.Dict) (data : Option StandupSydney.Dict)
    (now : String) : StandupSydney.Dict :=
  if !(configEnabled env "supabase") then
    [("error", Value.vstr "Supabase tool not enabled - check SUPABASE_URL and SUPABASE_ANON_KEY")]
  else
    [ ("operation", Value.vstr operation),
      ("table", Value.vstr table),
      ("filters", Value.vdict (dictOr filters)),
      ("data", Value.vdict (dictOr data)),
      ("status", Value.vstr "ready_for_implementation"),
      ("message", Value.vstr ("FastMCP ready to execute " ++ operation ++ " on " ++ table ++ " table")),
      ("timestamp", Value.vstr now) ]

end ServerFixed

/-- Environment with every credential variable unset. -/
def envAllOff : Env :=
  { supabase_url := "", supabase_anon_key := "", github_token := "",
    notion_token := "", metricool_api_key := "" }

/-- Environment with every credential variable set. -/
def envAllOn : Env :=
  { supabase_url := "https://example.supabase.co", supabase_anon_key := "anon-key",
    github_token := "gh-token", notion_token := "notion-token",
    metricool_api_key := "metricool-key" }

/-- Environment with the supabase endpoint set but the anon key absent. -/
def envUrlNoKey : Env :=
  { supabase_url := "https://example.supabase.co", supabase_anon_key := "",
    github_token := "", notion_token := "", metricool_api_key := "" }

/-- Environment with only the github token set. -/
def envGithubOnly : Env :=
  { supabase_url := "", supabase_anon_key := "", github_token := "gh-token",
    notion_token := "", metricool_api_key := "" }

/-- Status field of the i-th step record of a workflow report. -/
def workflowStepStatus (report : StandupSydney.Dict) (i : Nat) : Option Value :=
  match getKey report "steps" with
  | some (Value.vlist l) =>
    match l.get? i with
    | some (Value.vdict rec) =>
      match getKey rec "result" with
      | some (Value.vdict r) => getKey r "status"
      | _ => none
    | _ => none
  | _ => none

/-- A field of one tool entry in a list_tools report. -/
def listedToolField (report : StandupSydney.Dict) (name field : String) : Option Value :=
  match getKey report "tools" with
  | some (Value.vdict ts) =>
    match getKey ts name with
    | some (Value.vdict entry) => getKey entry field
    | _ => none
  | _ => none

/-- Number of step records in a workflow report. -/
def workflowStepCount (report : StandupSydney.Dict) : Nat :=
  match getKey report "steps" with
  | some (Value.vlist l) => l.length
  | _ => 0

/-- The comedian-operations wrapper exactly as claim C9 words it, for the
refinement comparison: filters are the singleton id mapping whenever a
comedian_id is given, including when it is the empty string. -/
def supabase_comedian_operations_claimed (env : Env) (action : String)
    (comedian_data : Option StandupSydney.Dict) (comedian_id : Option String)
    (now : String) : StandupSydney.Dict :=
  ServerMain.supabase_query env "comedians"
    (if action = "get" ∨ action = "list" then "select"
     else if action = "create" then "insert" else "update")
    (match comedian_id with
     | some cid => some [("id", Value.vstr cid)]
     | none => none)
    comedian_data
    now

/-- The C9 delegation as amended: filters carry the id mapping only when
comedian_id is given and non-empty; an absent or empty comedian_id yields no
filters (Python truthiness of the argument). -/
def supabase_comedian_operations_amended (env : Env) (action : String)
    (comedian_data : Option StandupSydney.Dict) (comedian_id : Option String)
    (now : String) : StandupSydney.Dict :=
  ServerMain.supabase_query env "comedians"
    (if action = "get" ∨ action = "list" then "select"
     else if action = "create" then "insert" else "update")
    (match comedian_id with
     | some cid => if cid = "" then none else some [("id", Value.vstr cid)]
     | none => none)
    comedian_data
    now

lemma pyTruthy_eq_true_iff (s : String) : pyTruthy s = true ↔ s ≠ "" := by
  simp [pyTruthy, bne_iff_ne]

/-- C1: every invocation of comedian_booking_workflow records all three declared
steps, in declaration order, each step record holding exactly the result of the
corresponding tool invocation. The equation holds for every environment,
including those in which the availability check or the workspace-logging step is
disabled and yields its error mapping, so the orchestrator never skips or aborts
the remaining steps: the promotion step result is always the promotion tool's
output on the threaded identifiers. -/
theorem C1_workflow_executes_all_steps_in_order (env : Env)
    (c e s t1 t2 t3 t4 : String) :
    getKey (ServerMain.comedian_booking_workflow env c e s t1 t2 t3 t4) "steps"
      = some (Value.vlist
          [ Value.vdict [("step", Value.vstr "availability_check"),
              ("result", Value.vdict
                (ServerMain.supabase_comedian_operations env "get" none (some c) t1))],
            Value.vdict [("step", Value.vstr "notion_logging"),
              ("result", Value.vdict
                (ServerMain.notion_project_logging env "booking_record" "create"
                  (some [ ("comedian_id", Value.vstr c), ("event_id", Value.vstr e),
                          ("stage", Value.vstr s) ]) t2))],
            Value.vdict [("step", Value.vstr "promotion_setup"),
              ("result", Value.vdict
                (ServerMain.metricool_promotion env "comedian_spotlight"
                  [("comedian_id", Value.vstr c), ("event_id", Value.vstr e)] none t3))] ]) :=
  rfl

/-- C2: every invocation of comedian_booking_workflow returns a report whose
steps list has length exactly 3, with the step names availability_check,
notion_logging (the workspace-logging stage) and promotion_setup in that fixed
order, independently of how many steps succeed or fail. -/
theorem C2_workflow_report_has_three_named_steps (env : Env)
    (c e s t1 t2 t3 t4 : String) :
    workflowStepCount (ServerMain.comedian_booking_workflow env c e s t1 t2 t3 t4) = 3
    ∧ ∃ r1 r2 r3 : Value,
        getKey (ServerMain.comedian_booking_workflow env c e s t1 t2 t3 t4) "steps"
          = some (Value.vlist
              [ Value.vdict [("step", Value.vstr "availability_check"), ("result", r1)],
                Value.vdict [("step", Value.vstr "notion_logging"), ("result", r2)],
                Value.vdict [("step", Value.vstr "promotion_setup"), ("result", r3)] ]) :=
  ⟨rfl, _, _, _, rfl⟩

/-- C3 counterexample: with every integration disabled, the first step's result
carries no status field at all (so not every step has status ok), yet the
report's status field is the constant workflow_executed — not partial_failure
and not ok — and the report has no overall_status key. -/
theorem C3_counterexample :
    workflowStepStatus
        (ServerMain.comedian_booking_workflow envAllOff "c1" "e1" "initial" "T1" "T2" "T3" "T4") 0
      = none
    ∧ getKey (ServerMain.comedian_booking_workflow envAllOff "c1" "e1" "initial" "T1" "T2" "T3" "T4")
        "status" = some (Value.vstr "workflow_executed")
    ∧ (some (Value.vstr "workflow_executed") : Option Value) ≠ some (Value.vstr "partial_failure")
    ∧ (some (Value.vstr "workflow_executed") : Option Value) ≠ some (Value.vstr "ok")
    ∧ getKey (ServerMain.comedian_booking_workflow envAllOff "c1" "e1" "initial" "T1" "T2" "T3" "T4")
        "overall_status" = none :=
  ⟨rfl, rfl, by simp, by simp, rfl⟩

/-- C3 amended: the report's status field is the constant workflow_executed for
every invocation, whatever the step outcomes are; the code computes no
overall_status and never produces ok or partial_failure at report level. -/
theorem C3_amended_status_constant (env : Env) (c e s t1 t2 t3 t4 : String) :
    getKey (ServerMain.comedian_booking_workflow env c e s t1 t2 t3 t4) "status"
      = some (Value.vstr "workflow_executed")
    ∧ getKey (ServerMain.comedian_booking_workflow env c e s t1 t2 t3 t4) "overall_status"
      = none :=
  ⟨rfl, rfl⟩

/-- C4 counterexample: with the supabase integration disabled, supabase_query
(in both server variants) returns a mapping with no status key — so not
status=backend_disabled — and no error_detail key. -/
theorem C4_counterexample :
    getKey (ServerMain.supabase_query envAllOff "comedians" "select" none none "T") "status" = none
    ∧ getKey (ServerMain.supabase_query envAllOff "comedians" "select" none none "T") "error_detail" = none
    ∧ getKey (ServerFixed.supabase_query envAllOff "comedians" "select" none none "T") "status" = none
    ∧ getKey (ServerFixed.supabase_query envAllOff "comedians" "select" none none "T") "error_detail" = none :=
  ⟨rfl, rfl, rfl, rfl⟩

/-- C4 amended: when the supabase integration is disabled, supabase_query (in
both server variants) short-circuits and returns a mapping consisting of a
single error field naming the missing configuration (SUPABASE_URL and
SUPABASE_ANON_KEY); the backend payload construction is never reached, and no
status or error_detail field is produced. -/
theorem C4_amended_disabled_returns_single_error_field (env : Env)
    (table op : String) (f d : Option Dict) (now : String) :
    (ServerMain.configEnabled env "supabase" = false →
      ServerMain.supabase_query env table op f d now
        = [("error", Value.vstr "Supabase tool not enabled - check SUPABASE_URL and SUPABASE_ANON_KEY")])
    ∧ (ServerFixed.configEnabled env "supabase" = false →
      ServerFixed.supabase_query env table op f d now
        = [("error", Value.vstr "Supabase tool not enabled - check SUPABASE_URL and SUPABASE_ANON_KEY")]) := by
  constructor <;> intro h
  · simp [ServerMain.supabase_query, h]
  · simp [ServerFixed.supabase_query, h]

/-- C4 witness: the amended statement evaluated with all credentials unset. -/
theorem C4_witness :
    ServerMain.supabase_query envAllOff "comedians" "select" none none "T"
      = [("error", Value.vstr "Supabase tool not enabled - check SUPABASE_URL and SUPABASE_ANON_KEY")]
    ∧ ServerFixed.supabase_query envAllOff "comedians" "select" none none "T"
      = [("error", Value.vstr "Supabase tool not enabled - check SUPABASE_URL and SUPABASE_ANON_KEY")] :=
  ⟨(C4_amended_disabled_returns_single_error_field envAllOff "comedians" "select" none none "T").1 rfl,
   (C4_amended_disabled_returns_single_error_field envAllOff "comedians" "select" none none "T").2 rfl⟩

/-- C5 counterexample: with the supabase endpoint set but the anon key empty,
the supabase integration is enabled in both server variants, refuting that
enablement requires all of the endpoint/key pair to be non-empty. -/
theorem C5_counterexample :
    ServerMain.configEnabled envUrlNoKey "supabase" = true
    ∧ ServerFixed.configEnabled envUrlNoKey "supabase" = true
    ∧ envUrlNoKey.supabase_anon_key = "" :=
  ⟨rfl, rfl, rfl⟩

/-- C5 amended: the supabase integration is enabled iff SUPABASE_URL is
non-empty — the anon key is stored but never consulted for enablement; github,
notion and metricool are enabled iff their single token or api key is
non-empty; the local tools (browser, playwright, filesystem) are always
enabled. -/
theorem C5_amended_enablement_formula (env : Env) :
    (ServerMain.configEnabled env "supabase" = true ↔ env.supabase_url ≠ "")
    ∧ (ServerMain.configEnabled env "github" = true ↔ env.github_token ≠ "")
    ∧ (ServerMain.configEnabled env "notion" = true ↔ env.notion_token ≠ "")
    ∧ (ServerMain.configEnabled env "metricool" = true ↔ env.metricool_api_key ≠ "")
    ∧ ServerMain.configEnabled env "browser" = true
    ∧ ServerMain.configEnabled env "filesystem" = true
    ∧ (ServerFixed.configEnabled env "supabase" = true ↔ env.supabase_url ≠ "")
    ∧ ServerFixed.configEnabled env "playwright" = true
    ∧ ServerFixed.configEnabled env "filesystem" = true :=
  ⟨pyTruthy_eq_true_iff _, pyTruthy_eq_true_iff _, pyTruthy_eq_true_iff _,
   pyTruthy_eq_true_iff _, rfl, rfl, pyTruthy_eq_true_iff _, rfl, rfl⟩

/-- C6 counterexample: with the supabase endpoint set but the anon key empty,
list_tools reports configured=true for the supabase entry in both server
variants, refuting that the entry must report configured=false when a secret of
its integration is absent. -/
theorem C6_counterexample :
    listedToolField (ServerMain.list_tools envUrlNoKey "D") "supabase" "configured"
      = some (Value.vbool true)
    ∧ listedToolField (ServerFixed.list_tools envUrlNoKey "D") "supabase" "configured"
      = some (Value.vbool true)
    ∧ envUrlNoKey.supabase_anon_key = "" :=
  ⟨rfl, rfl, rfl⟩

/-- C6 amended: list_tools computes configured as the truthiness of the first
present value among token, api_key, url and the enabled flag; hence the
supabase entry reports configured=true iff its endpoint is non-empty (the key
is not consulted), the token-gated entries report it iff their single token or
api key is non-empty, and the tools with no required integration always report
configured=true. -/
theorem C6_amended_configured_formula (env : Env) (d : String) :
    listedToolField (ServerMain.list_tools env d) "supabase" "configured"
      = some (Value.vbool (pyTruthy env.supabase_url))
    ∧ listedToolField (ServerMain.list_tools env d) "github" "configured"
      = some (Value.vbool (pyTruthy env.github_token))
    ∧ listedToolField (ServerMain.list_tools env d) "notion" "configured"
      = some (Value.vbool (pyTruthy env.notion_token))
    ∧ listedToolField (ServerMain.list_tools env d) "metricool" "configured"
      = some (Value.vbool (pyTruthy env.metricool_api_key))
    ∧ listedToolField (ServerMain.list_tools env d) "browser" "configured"
      = some (Value.vbool true)
    ∧ listedToolField (ServerMain.list_tools env d) "filesystem" "configured"
      = some (Value.vbool true)
    ∧ listedToolField (ServerFixed.list_tools env d) "supabase" "configured"
      = some (Value.vbool (pyTruthy env.supabase_url))
    ∧ listedToolField (ServerFixed.list_tools env d) "playwright" "configured"
      = some (Value.vbool true) := by
  refine ⟨?_, ?_, ?_, ?_, ?_, ?_, ?_, ?_⟩ <;>
    simp [listedToolField, ServerMain.list_tools, ServerFixed.list_tools,
      ServerMain.TOOL_CONFIGS, ServerFixed.TOOL_CONFIGS, getKey, List.lookup,
      configuredFlag, optTruthy]

/-- C7 counterexample: the disabled-integration branch of supabase_query and of
github_deployment_tracking returns a mapping with neither a status nor a
timestamp field, and even with every credential set list_tools returns a
mapping with neither field at top level — refuting that every invocation
returns at minimum status and timestamp. -/
theorem C7_counterexample :
    getKey (ServerMain.supabase_query envAllOff "comedians" "select" none none "T") "status" = none
    ∧ getKey (ServerMain.supabase_query envAllOff "comedians" "select" none none "T") "timestamp" = none
    ∧ getKey (ServerMain.github_deployment_tracking envAllOff "standup-sydney-frontend" "status" none "T") "status" = none
    ∧ getKey (ServerMain.github_deployment_tracking envAllOff "standup-sydney-frontend" "status" none "T") "timestamp" = none
    ∧ getKey (ServerMain.list_tools envAllOn "D") "status" = none
    ∧ getKey (ServerMain.list_tools envAllOn "D") "timestamp" = none :=
  ⟨rfl, rfl, rfl, rfl, rfl, rfl⟩

/-- C7 amended: enabled-path backend-tool invocations (supabase_query,
github_deployment_tracking) and health_check return mappings containing status
and timestamp, and every invocation returns a structured mapping rather than
faulting; but the disabled-integration branch returns a mapping with only an
error field — no status, no timestamp — and list_tools contains neither status
nor timestamp at top level. -/
theorem C7_amended_result_shape (env : Env) (table op : String)
    (f dt : Option Dict) (now repo act : String) (dd : Option Dict) (d : String) :
    (ServerMain.configEnabled env "supabase" = true →
        getKey (ServerMain.supabase_query env table op f dt now) "status"
          = some (Value.vstr "ready_for_implementation")
      ∧ getKey (ServerMain.supabase_query env table op f dt now) "timestamp"
          = some (Value.vstr now))
    ∧ (ServerMain.configEnabled env "supabase" = false →
        ServerMain.supabase_query env table op f dt now
          = [("error", Value.vstr "Supabase tool not enabled - check SUPABASE_URL and SUPABASE_ANON_KEY")])
    ∧ (ServerMain.configEnabled env "github" = true →
        getKey (ServerMain.github_deployment_tracking env repo act dd now) "status"
          = some (Value.vstr "ready_for_implementation")
      ∧ getKey (ServerMain.github_deployment_tracking env repo act dd now) "timestamp"
          = some (Value.vstr now))
    ∧ (ServerMain.configEnabled env "github" = false →
        ServerMain.github_deployment_tracking env repo act dd now
          = [("error", Value.vstr "GitHub tool not enabled - check GITHUB_TOKEN")])
    ∧ getKey (ServerMain.health_check env d now) "status" = some (Value.vstr "healthy")
    ∧ getKey (ServerMain.health_check env d now) "timestamp" = some (Value.vstr now)
    ∧ getKey (ServerMain.list_tools env d) "status" = none
    ∧ getKey (ServerMain.list_tools env d) "timestamp" = none := by
  refine ⟨?_, ?_, ?_, ?_, rfl, rfl, rfl, rfl⟩
  · intro h
    constructor <;> simp [ServerMain.supabase_query, h, getKey, List.lookup]
  · intro h
    simp [ServerMain.supabase_query, h]
  · intro h
    constructor <;> simp [ServerMain.github_deployment_tracking, h, getKey, List.lookup]
  · intro h
    simp [ServerMain.github_deployment_tracking, h]

/-- C7 witness: the amended statement evaluated with all credentials set and
with all credentials unset. -/
theorem C7_witness :
    getKey (ServerMain.supabase_query envAllOn "comedians" "select" none none "T") "status"
      = some (Value.vstr "ready_for_implementation")
    ∧ ServerMain.supabase_query envAllOff "comedians" "select" none none "T"
      = [("error", Value.vstr "Supabase tool not enabled - check SUPABASE_URL and SUPABASE_ANON_KEY")]
    ∧ getKey (ServerMain.github_deployment_tracking envAllOn "standup-sydney-frontend" "status" none "T") "timestamp"
      = some (Value.vstr "T")
    ∧ ServerMain.github_deployment_tracking envAllOff "standup-sydney-frontend" "status" none "T"
      = [("error", Value.vstr "GitHub tool not enabled - check GITHUB_TOKEN")] :=
  ⟨((C7_amended_result_shape envAllOn "comedians" "select" none none "T"
      "standup-sydney-frontend" "status" none "D").1 rfl).1,
   (C7_amended_result_shape envAllOff "comedians" "select" none none "T"
      "standup-sydney-frontend" "status" none "D").2.1 rfl,
   ((C7_amended_result_shape envAllOn "comedians" "select" none none "T"
      "standup-sydney-frontend" "status" none "D").2.2.1 rfl).2,
   (C7_amended_result_shape envAllOff "comedians" "select" none none "T"
      "standup-sydney-frontend" "status" none "D").2.2.2.1 rfl⟩

/-- C8: the tools_enabled listing of health_check is identical across two calls
under the same environment snapshot — in both server variants it equals the
enabled-entry names of TOOL_CONFIGS, a pure function of the immutable
configuration, independent of the invocation-time timestamp. -/
theorem C8_health_check_tools_enabled_deterministic (env : Env) (d pv t1 t2 : String) :
    getKey (ServerMain.health_check env d t1) "tools_enabled"
      = getKey (ServerMain.health_check env d t2) "tools_enabled"
    ∧ getKey (ServerMain.health_check env d t1) "tools_enabled"
      = some (Value.vlist ((ServerMain.enabledTools env).map Value.vstr))
    ∧ getKey (ServerFixed.health_check env d pv t1) "tools_enabled"
      = getKey (ServerFixed.health_check env d pv t2) "tools_enabled"
    ∧ getKey (ServerFixed.health_check env d pv t1) "tools_enabled"
      = some (Value.vlist ((ServerFixed.enabledTools env).map Value.vstr)) :=
  ⟨rfl, rfl, rfl, rfl⟩

/-- C9 counterexample: at comedian_id equal to the empty string (a given
subject_id), the wrapper passes no filters — the delegated result carries the
empty filters mapping — whereas the claim's wording mandates filters id within
the delegated call, producing a different result; so the two disagree at this
input. -/
theorem C9_counterexample :
    getKey (ServerMain.supabase_comedian_operations envAllOn "get" none (some "") "T") "filters"
      = some (Value.vdict [])
    ∧ getKey (supabase_comedian_operations_claimed envAllOn "get" none (some "") "T") "filters"
      = some (Value.vdict [("id", Value.vstr "")])
    ∧ ServerMain.supabase_comedian_operations envAllOn "get" none (some "") "T"
      ≠ supabase_comedian_operations_claimed envAllOn "get" none (some "") "T" := by
  refine ⟨rfl, rfl, ?_⟩
  intro h
  have h2 := congrArg (fun r => getKey r "filters") h
  simp [ServerMain.supabase_comedian_operations, supabase_comedian_operations_claimed,
    ServerMain.supabase_query, getKey, List.lookup, dictOr, optTruthy, pyTruthy,
    ServerMain.configEnabled, ServerMain.TOOL_CONFIGS, envAllOn] at h2

/-- C9 amended: supabase_comedian_operations is a pure delegation to
supabase_query on table comedians, with operation select for get or list,
insert for create and update otherwise, data equal to comedian_data, and
filters id equal to comedian_id when comedian_id is given and non-empty — an
absent or empty comedian_id yields no filters (Python truthiness). -/
theorem C9_amended_delegation (env : Env) (action : String)
    (comedian_data : Option Dict) (comedian_id : Option String) (now : String) :
    ServerMain.supabase_comedian_operations env action comedian_data comedian_id now
      = supabase_comedian_operations_amended env action comedian_data comedian_id now := by
  cases comedian_id with
  | none => rfl
  | some c =>
    by_cases hc : c = ""
    · subst hc; rfl
    · simp [ServerMain.supabase_comedian_operations, supabase_comedian_operations_amended,
        optTruthy, pyTruthy, bne_iff_ne, hc]

/-- C10: when the source-control integration is enabled, github_version_control
returns exactly the five-field mapping repo, action (the requested operation),
status, message, timestamp; the branch and file_data arguments are silently
discarded — the delegate github_deployment_tracking never places its
deployment_data parameter in the payload, so no branch, file_data or
deployment_data key appears in the result. -/
theorem C10_version_control_discards_branch_and_file_data (env : Env)
    (repo op branch : String) (fd : Option Dict) (now : String)
    (h : ServerMain.configEnabled env "github" = true) :
    ServerMain.github_version_control env repo op branch fd now
      = [ ("repo", Value.vstr repo),
          ("action", Value.vstr op),
          ("status", Value.vstr "ready_for_implementation"),
          ("message", Value.vstr ("FastMCP ready to track " ++ repo ++ " deployments")),
          ("timestamp", Value.vstr now) ]
    ∧ getKey (ServerMain.github_version_control env repo op branch fd now) "branch" = none
    ∧ getKey (ServerMain.github_version_control env repo op branch fd now) "file_data" = none
    ∧ getKey (ServerMain.github_version_control env repo op branch fd now) "deployment_data" = none := by
  have heq : ServerMain.github_version_control env repo op branch fd now
      = [ ("repo", Value.vstr repo),
          ("action", Value.vstr op),
          ("status", Value.vstr "ready_for_implementation"),
          ("message", Value.vstr ("FastMCP ready to track " ++ repo ++ " deployments")),
          ("timestamp", Value.vstr now) ] := by
    simp [ServerMain.github_version_control, ServerMain.github_deployment_tracking, h]
  refine ⟨heq, ?_, ?_, ?_⟩ <;> rw [heq] <;> rfl

/-- C10 witness: the statement evaluated with only the github token set. -/
theorem C10_witness :
    ServerMain.github_version_control envGithubOnly "standup-sydney-frontend" "create_file" "main" none "T"
      = [ ("repo", Value.vstr "standup-sydney-frontend"),
          ("action", Value.vstr "create_file"),
          ("status", Value.vstr "ready_for_implementation"),
          ("message", Value.vstr "FastMCP ready to track standup-sydney-frontend deployments"),
          ("timestamp", Value.vstr "T") ] :=
  (C10_version_control_discards_branch_and_file_data envGithubOnly
    "standup-sydney-frontend" "create_file" "main" none "T" rfl).1

end StandupSydney
